import Mathlib

/-!
Verification development for the flora/fauna scan service.

The server code under scrutiny is `registerScansRoutes` (the second document
in `src/components/FloatingTabBar.tsx`), the drizzle `scans` table schema
(`src/unnamed/part_001`), and the client screens (`src/unnamed/part_002`).

The three HTTP routes are embedded as pure Lean functions.  External
collaborators (storage adapter, vision-analysis adapter, database insert)
are parameters gathered in an `Env` record; each adapter call is a Lean
function returning `Except Unit _` so that a failing adapter is a `.error`.
The upload route additionally returns the trace of external calls it made,
in order, as a `List Event`; awaited calls in the straight-line source
become consecutive trace entries, so the order of the list is the temporal
order of the calls.
-/

namespace FloraFauna

/-- A byte buffer (the `Buffer` the route obtains from `data.toBuffer()`),
modelled as its list of bytes. -/
abbrev ByteBuf := List Nat

/-- The multipart file part delivered by `request.file(...)`:
`data.filename`, `data.mimetype` (absent modelled as `none`) and the
bytes of the uploaded file. -/
structure FilePart where
  filename : String
  mimetype : Option String
  content : ByteBuf
  deriving DecidableEq

/-- The `fileSize` limit passed to `request.file`: `10 * 1024 * 1024`. -/
def fileSizeLimit : Nat := 10 * 1024 * 1024

/-- Models `await data.toBuffer()`: succeeds with the bytes when the file
fits in the multipart `fileSize` limit, throws (is `.error`) when the
streamed file exceeded it. -/
def toBuffer (limit : Nat) (data : FilePart) : Except Unit ByteBuf :=
  if data.content.length ≤ limit then .ok data.content else .error ()

/-- The `confidence` enum of `analysisSchema` and of the `scans` table:
a zod enum of the three values high, medium, low. -/
inductive Confidence where
  | high
  | medium
  | low
  deriving DecidableEq

/-- The object validated by `analysisSchema` (zod): exactly seven fields,
two of them booleans, `confidence` drawn from the three-valued enum. -/
structure Analysis where
  species : String
  commonName : String
  isSafeToEat : Bool
  isSafeToTouch : Bool
  confidence : Confidence
  warnings : String
  description : String
  deriving DecidableEq

/-- The authenticated session resolved by `requireAuth`; the route only
uses `session.user.id`. -/
structure Session where
  userId : String
  deriving DecidableEq

/-- The row passed to `app.db.insert(schema.scans).values({...})`. -/
structure ScanInsert where
  userId : String
  imageUrl : String
  imageKey : String
  species : String
  commonName : String
  isSafeToEat : Bool
  isSafeToTouch : Bool
  confidence : Confidence
  warnings : String
  description : String
  deriving DecidableEq

/-- A persisted row of the `scans` table (`src/unnamed/part_001`): the
insert row plus the server-assigned `id` (uuid primary key) and
`createdAt` timestamp. -/
structure Scan where
  id : String
  userId : String
  imageUrl : String
  imageKey : String
  species : String
  commonName : String
  isSafeToEat : Bool
  isSafeToTouch : Bool
  confidence : Confidence
  warnings : String
  description : String
  createdAt : Nat
  deriving DecidableEq

/-- The external collaborators of the routes.  `storageUpload` is
`app.storage.upload(key, buffer)` (returns the durable key),
`getSignedUrl` is `app.storage.getSignedUrl(key)` (returns the signed
`url`), `generateObject` is the vision-analysis adapter (the image bytes
and the mime type are sent; the base64 transport encoding of the bytes is
a bijection and is elided), `dbInsert` is
`app.db.insert(schema.scans).values(row).returning()`. -/
structure Env where
  storageUpload : String → ByteBuf → Except Unit String
  getSignedUrl : String → Except Unit String
  generateObject : ByteBuf → String → Except Unit Analysis
  dbInsert : ScanInsert → Except Unit Scan

/-- One external call made by the upload route.  `storageDelete` is the
delete operation of the storage adapter: the route code never invokes it
(it has no compensation logic), so it can never appear in a trace. -/
inductive Event where
  | storageUpload (key : String) (bytes : ByteBuf)
  | signUrl (key : String)
  | analyze (bytes : ByteBuf) (mime : String)
  | dbInsert (row : ScanInsert)
  | storageDelete (key : String)
  deriving DecidableEq

/-- The outcome of `POST /api/scans/upload` as seen by the client:
`unauthenticated` when `requireAuth` rejected (401/redirect handled by the
auth collaborator), `badRequest` is `reply.status(400).send({error})`,
`payloadTooLarge` is `reply.status(413).send({error})`, `serverError` is
the rethrown adapter failure, `ok` is the 200 body
`{scanId, imageUrl, analysis}`. -/
inductive UploadResponse where
  | unauthenticated
  | badRequest (error : String)
  | payloadTooLarge (error : String)
  | serverError
  | ok (scanId : String) (imageUrl : String) (analysis : Analysis)
  deriving DecidableEq

/-- The storage key built by the route: the template literal
interpolating scans/, the session user id, /, Date.now() and the original
filename, separated by a dash. -/
def scanKey (userId : String) (now : Nat) (filename : String) : String :=
  "scans/" ++ userId ++ "/" ++ toString now ++ "-" ++ filename

/-- The `values({...})` record of the insert: owner id, signed url,
uploaded key, and the seven analysis fields copied from
`analysisResult.object`. -/
def mkInsertRow (userId url ukey : String) (a : Analysis) : ScanInsert :=
  { userId := userId
    imageUrl := url
    imageKey := ukey
    species := a.species
    commonName := a.commonName
    isSafeToEat := a.isSafeToEat
    isSafeToTouch := a.isSafeToTouch
    confidence := a.confidence
    warnings := a.warnings
    description := a.description }

/-- Route `POST /api/scans/upload` (`registerScansRoutes`): requireAuth,
read the file part with the 10 MiB limit, 400 when absent, 413 when
`toBuffer` throws, then sequentially: storage upload, signed-url
derivation, vision analysis (with the mimetype defaulted to image/jpeg
when absent), database insert; any adapter failure is rethrown
(`serverError`).  The second component is the trace of external calls, in
order. -/
def uploadRoute (env : Env) (session : Option Session) (file : Option FilePart)
    (now : Nat) : UploadResponse × List Event :=
  match session with
  | none => (.unauthenticated, [])
  | some s =>
    match file with
    | none => (.badRequest "No file provided", [])
    | some data =>
      match toBuffer fileSizeLimit data with
      | .error _ => (.payloadTooLarge "File too large", [])
      | .ok buffer =>
        let key := scanKey s.userId now data.filename
        match env.storageUpload key buffer with
        | .error _ => (.serverError, [.storageUpload key buffer])
        | .ok uploadedKey =>
          match env.getSignedUrl uploadedKey with
          | .error _ => (.serverError, [.storageUpload key buffer, .signUrl uploadedKey])
          | .ok url =>
            let mimeType := data.mimetype.getD "image/jpeg"
            match env.generateObject buffer mimeType with
            | .error _ =>
              (.serverError,
                [.storageUpload key buffer, .signUrl uploadedKey, .analyze buffer mimeType])
            | .ok analysis =>
              let row := mkInsertRow s.userId url uploadedKey analysis
              match env.dbInsert row with
              | .error _ =>
                (.serverError,
                  [.storageUpload key buffer, .signUrl uploadedKey,
                   .analyze buffer mimeType, .dbInsert row])
              | .ok scan =>
                (.ok scan.id url analysis,
                  [.storageUpload key buffer, .signUrl uploadedKey,
                   .analyze buffer mimeType, .dbInsert row])

/-- The drizzle query of `GET /api/scans`:
`findMany({where: eq(scans.userId, uid), orderBy: [desc(scans.createdAt)]})`,
i.e. the rows of the table owned by `uid`, sorted by `createdAt`
descending. -/
def scansByUserDesc (db : List Scan) (userId : String) : List Scan :=
  (db.filter fun sc => sc.userId == userId).mergeSort fun a b =>
    b.createdAt ≤ a.createdAt

/-- The outcome of `GET /api/scans`. -/
inductive ListResponse where
  | unauthenticated
  | ok (scans : List Scan)
  deriving DecidableEq

/-- Route `GET /api/scans` (`registerScansRoutes`): requireAuth, then
return the scans of the session owner most recent first, verbatim from
the table. -/
def listScansRoute (db : List Scan) (session : Option Session) : ListResponse :=
  match session with
  | none => .unauthenticated
  | some s => .ok (scansByUserDesc db s.userId)

/-- The outcome of `GET /api/scans/:id`: `notFound` is the 404 reply with
the constant error body "Scan not found", `forbidden` is the 403 reply
with the constant error body "Unauthorized" (mentioning no field of the
scan), `serverError` a rethrown adapter failure, `ok` the spread body of
the scan with `imageUrl` overridden. -/
inductive GetScanResponse where
  | unauthenticated
  | notFound (error : String)
  | forbidden (error : String)
  | serverError
  | ok (body : Scan)
  deriving DecidableEq

/-- Route `GET /api/scans/:id` (`registerScansRoutes`): requireAuth,
findFirst by id, 404 when absent, 403 when the scan owner differs from
the session user, otherwise re-sign `scan.imageKey` and return the record
with the fresh url spliced over `imageUrl`. -/
def getScanRoute (env : Env) (db : List Scan) (session : Option Session)
    (id : String) : GetScanResponse :=
  match session with
  | none => .unauthenticated
  | some s =>
    match db.find? (fun sc => sc.id == id) with
    | none => .notFound "Scan not found"
    | some scan =>
      if scan.userId ≠ s.userId then .forbidden "Unauthorized"
      else
        match env.getSignedUrl scan.imageKey with
        | .error _ => .serverError
        | .ok url => .ok { scan with imageUrl := url }

/-! ### Concrete data for witnesses -/

/-- A sample analysis object, as the vision adapter could return it. -/
def sampleAnalysis : Analysis :=
  { species := "Amanita muscaria"
    commonName := "Fly agaric"
    isSafeToEat := false
    isSafeToTouch := true
    confidence := .high
    warnings := "Toxic if ingested"
    description := "A red mushroom with white spots" }

/-- The row the database returns from an insert: the inserted fields plus
a server-assigned id and timestamp. -/
def insertedScan (id : String) (createdAt : Nat) (row : ScanInsert) : Scan :=
  { id := id
    userId := row.userId
    imageUrl := row.imageUrl
    imageKey := row.imageKey
    species := row.species
    commonName := row.commonName
    isSafeToEat := row.isSafeToEat
    isSafeToTouch := row.isSafeToTouch
    confidence := row.confidence
    warnings := row.warnings
    description := row.description
    createdAt := createdAt }

/-- An environment where every adapter succeeds: storage echoes the key
(the adapter contract of section 6 of the spec, put returning its key),
signing prepends a host, analysis returns `sampleAnalysis`, insert
assigns id scan-1 and timestamp 99. -/
def envOk : Env :=
  { storageUpload := fun key _ => .ok key
    getSignedUrl := fun key => .ok ("https://signed.example/" ++ key)
    generateObject := fun _ _ => .ok sampleAnalysis
    dbInsert := fun row => .ok (insertedScan "scan-1" 99 row) }

/-- Like `envOk` but the vision-analysis adapter fails. -/
def envAnalysisFails : Env :=
  { envOk with generateObject := fun _ _ => .error () }

/-- A small well-formed file part. -/
def sampleFile : FilePart :=
  { filename := "f.jpg", mimetype := some "image/jpeg", content := [1, 2, 3] }

/-- A file part of exactly 10 MiB + 1 byte. -/
def oversizedFile : FilePart :=
  { filename := "big.jpg", mimetype := none
    content := List.replicate (fileSizeLimit + 1) 0 }

/-! ### Claims -/

/-- C8: an authenticated upload request carrying no file part gets the
400 reply with body error "No file provided", and the trace of external
calls is empty: no storage, vision or database call is made. -/
theorem upload_no_file_400 (env : Env) (s : Session) (now : Nat) :
    uploadRoute env (some s) none now = (.badRequest "No file provided", []) := rfl

/-- C1: an upload whose file part exceeds the 10 MiB cap gets the 413
reply with body error "File too large", and the trace of external calls
is empty: the storage adapter, the vision-analysis adapter and the
database insert are never reached on this path. -/
theorem upload_oversize_413 (env : Env) (s : Session) (data : FilePart) (now : Nat)
    (h : fileSizeLimit < data.content.length) :
    uploadRoute env (some s) (some data) now =
      (.payloadTooLarge "File too large", []) := by
  have hnb : toBuffer fileSizeLimit data = .error () := by
    unfold toBuffer
    rw [if_neg (Nat.not_le.mpr h)]
  simp [uploadRoute, hnb]

/-- Witness for C1 at a file of exactly 10 MiB + 1 byte. -/
theorem upload_oversize_413_witness :
    fileSizeLimit < oversizedFile.content.length ∧
    uploadRoute envOk (some ⟨"user-a"⟩) (some oversizedFile) 0 =
      (.payloadTooLarge "File too large", []) :=
  have h : fileSizeLimit < oversizedFile.content.length := by
    show fileSizeLimit < (List.replicate (fileSizeLimit + 1) 0).length
    rw [List.length_replicate]
    exact Nat.lt_succ_self _
  ⟨h, upload_oversize_413 envOk ⟨"user-a"⟩ oversizedFile 0 h⟩

/-- C5: when the session is valid, the file part is under the cap and all
three adapters succeed, the upload route responds 200 with the shape
scanId, imageUrl, analysis, where the analysis object is the
schema-validated record (the `Analysis` structure embeds `analysisSchema`
with exactly its seven fields, `isSafeToEat` and `isSafeToTouch` being
booleans by type) and its confidence is one of high, medium, low. -/
theorem upload_success_shape (env : Env) (s : Session) (data : FilePart) (now : Nat)
    (buffer : ByteBuf) (ukey url : String) (a : Analysis) (scan : Scan)
    (hbuf : toBuffer fileSizeLimit data = .ok buffer)
    (hup : env.storageUpload (scanKey s.userId now data.filename) buffer = .ok ukey)
    (hsign : env.getSignedUrl ukey = .ok url)
    (han : env.generateObject buffer (data.mimetype.getD "image/jpeg") = .ok a)
    (hins : env.dbInsert (mkInsertRow s.userId url ukey a) = .ok scan) :
    (uploadRoute env (some s) (some data) now).1 = .ok scan.id url a ∧
    (a.confidence = .high ∨ a.confidence = .medium ∨ a.confidence = .low) := by
  constructor
  · simp [uploadRoute, hbuf, hup, hsign, han, hins]
  · cases h : a.confidence
    · exact Or.inl rfl
    · exact Or.inr (Or.inl rfl)
    · exact Or.inr (Or.inr rfl)

/-- Witness for C5 on a concrete successful upload. -/
theorem upload_success_shape_witness :
    (uploadRoute envOk (some ⟨"user-a"⟩) (some sampleFile) 7).1 =
      .ok "scan-1" ("https://signed.example/" ++ scanKey "user-a" 7 "f.jpg")
        sampleAnalysis ∧
    (sampleAnalysis.confidence = .high ∨ sampleAnalysis.confidence = .medium ∨
      sampleAnalysis.confidence = .low) :=
  upload_success_shape envOk ⟨"user-a"⟩ sampleFile 7 [1, 2, 3]
    (scanKey "user-a" 7 "f.jpg")
    ("https://signed.example/" ++ scanKey "user-a" 7 "f.jpg")
    sampleAnalysis
    (insertedScan "scan-1" 99
      (mkInsertRow "user-a" ("https://signed.example/" ++ scanKey "user-a" 7 "f.jpg")
        (scanKey "user-a" 7 "f.jpg") sampleAnalysis))
    rfl rfl rfl rfl rfl

/-- A persisted scan owned by user alice, whose stored `imageUrl` is a
stale link distinct from what re-signing its key would give. -/
def scanAlice : Scan :=
  { id := "s1"
    userId := "alice"
    imageUrl := "stale-url"
    imageKey := "k1"
    species := "Quercus robur"
    commonName := "English oak"
    isSafeToEat := false
    isSafeToTouch := true
    confidence := .medium
    warnings := ""
    description := "A large deciduous tree"
    createdAt := 1 }

/-- A one-row scans table. -/
def dbOne : List Scan := [scanAlice]

/-- C3: for an authenticated `GET /api/scans/:id`, when no scan has the
requested id the route replies 404 "Scan not found"; when the scan exists
but its owner differs from the session user it replies 403 with the
constant body "Unauthorized", which carries no field of the scan; when
the owner matches and signing succeeds it replies with the scan record
whose `imageUrl` is the freshly signed url of the stored key. -/
theorem getScan_cases (env : Env) (db : List Scan) (s : Session) (id : String) :
    (db.find? (fun sc => sc.id == id) = none →
      getScanRoute env db (some s) id = .notFound "Scan not found") ∧
    (∀ scan, db.find? (fun sc => sc.id == id) = some scan →
      scan.userId ≠ s.userId →
      getScanRoute env db (some s) id = .forbidden "Unauthorized") ∧
    (∀ scan url, db.find? (fun sc => sc.id == id) = some scan →
      scan.userId = s.userId →
      env.getSignedUrl scan.imageKey = .ok url →
      getScanRoute env db (some s) id = .ok { scan with imageUrl := url }) := by
  refine ⟨fun h => ?_, fun scan h hne => ?_, fun scan url h he hs => ?_⟩
  · simp [getScanRoute, h]
  · simp [getScanRoute, h, hne]
  · simp [getScanRoute, h, he, hs]

/-- Witness for C3: alice owns scan s1; bob reading s1 gets the constant
403 body, anyone reading a missing id gets 404, alice reading s1 gets the
record with a fresh signed url. -/
theorem getScan_cases_witness :
    getScanRoute envOk dbOne (some ⟨"bob"⟩) "s1" = .forbidden "Unauthorized" ∧
    getScanRoute envOk dbOne (some ⟨"bob"⟩) "s2" = .notFound "Scan not found" ∧
    getScanRoute envOk dbOne (some ⟨"alice"⟩) "s1" =
      .ok { scanAlice with imageUrl := "https://signed.example/" ++ "k1" } :=
  ⟨(getScan_cases envOk dbOne ⟨"bob"⟩ "s1").2.1 scanAlice (by decide) (by decide),
   (getScan_cases envOk dbOne ⟨"bob"⟩ "s2").1 (by decide),
   (getScan_cases envOk dbOne ⟨"alice"⟩ "s1").2.2 scanAlice
     ("https://signed.example/" ++ "k1") (by decide) (by decide) rfl⟩

/-- C4: an authenticated `GET /api/scans` returns exactly the scans whose
owner is the session user — the result is a permutation of the rows of
the table filtered to that owner, so all of them appear, none of any
other user, no pagination, and the count is preserved (three prior scans
give exactly three records) — ordered by `createdAt` descending. -/
theorem listScans_owner_ordered (db : List Scan) (s : Session) :
    listScansRoute db (some s) = .ok (scansByUserDesc db s.userId) ∧
    (scansByUserDesc db s.userId).Perm
      (db.filter fun sc => sc.userId == s.userId) ∧
    List.Pairwise (fun a b => b.createdAt ≤ a.createdAt)
      (scansByUserDesc db s.userId) ∧
    (∀ sc ∈ scansByUserDesc db s.userId, sc.userId = s.userId) ∧
    (scansByUserDesc db s.userId).length =
      (db.filter fun sc => sc.userId == s.userId).length := by
  unfold scansByUserDesc
  have hperm := List.mergeSort_perm (db.filter fun sc => sc.userId == s.userId)
    (fun a b : Scan => decide (b.createdAt ≤ a.createdAt))
  refine ⟨rfl, hperm, ?_, ?_, hperm.length_eq⟩
  · have hs := @List.sorted_mergeSort Scan
      (fun a b : Scan => decide (b.createdAt ≤ a.createdAt))
      (fun a b c hab hbc => by
        simp only [decide_eq_true_eq] at hab hbc ⊢
        exact le_trans hbc hab)
      (fun a b => by
        simp only [Bool.or_eq_true, decide_eq_true_eq]
        exact Nat.le_total b.createdAt a.createdAt)
      (db.filter fun sc => sc.userId == s.userId)
    exact hs.imp fun h => by simpa using h
  · intro sc hsc
    have hmem : sc ∈ db.filter fun sc => sc.userId == s.userId :=
      hperm.mem_iff.mp hsc
    have := List.of_mem_filter hmem
    simpa using this

/-- Counterexample to C2: on the list-by-owner route the image URL is NOT
re-derived by signing the stored key — the route returns the persisted
row verbatim.  Concretely, alice lists her scans and receives the stored
`imageUrl` "stale-url", although signing the stored key "k1" would give a
different (fresh) url; an expired persisted link is thus served. -/
theorem list_route_serves_persisted_url :
    listScansRoute dbOne (some ⟨"alice"⟩) = .ok [scanAlice] ∧
    envOk.getSignedUrl scanAlice.imageKey =
      .ok ("https://signed.example/" ++ "k1") ∧
    scanAlice.imageUrl ≠ "https://signed.example/" ++ "k1" := by
  refine ⟨?_, rfl, by decide⟩
  simp [listScansRoute, scansByUserDesc, dbOne, scanAlice, List.filter]

/-- C2 amended: the upload route persists both the durable storage key
(as `imageKey`) and the upload-time signed URL (as `imageUrl`) in the
inserted row; only the get-by-id route re-derives the image URL by
signing the stored key on read, while the list-by-owner route returns
each row of the table verbatim, with the persisted upload-time URL. -/
theorem signed_url_persistence_and_rederivation
    (env : Env) (db : List Scan) (s : Session) (id : String) (scan : Scan)
    (url : String) (data : FilePart) (now : Nat) (buffer : ByteBuf)
    (ukey uurl : String) (a : Analysis) (inserted : Scan)
    (hfind : db.find? (fun sc => sc.id == id) = some scan)
    (hown : scan.userId = s.userId)
    (hsign : env.getSignedUrl scan.imageKey = .ok url)
    (hbuf : toBuffer fileSizeLimit data = .ok buffer)
    (hup : env.storageUpload (scanKey s.userId now data.filename) buffer = .ok ukey)
    (husign : env.getSignedUrl ukey = .ok uurl)
    (han : env.generateObject buffer (data.mimetype.getD "image/jpeg") = .ok a)
    (hins : env.dbInsert (mkInsertRow s.userId uurl ukey a) = .ok inserted) :
    Event.dbInsert (mkInsertRow s.userId uurl ukey a) ∈
      (uploadRoute env (some s) (some data) now).2 ∧
    (mkInsertRow s.userId uurl ukey a).imageUrl = uurl ∧
    (mkInsertRow s.userId uurl ukey a).imageKey = ukey ∧
    getScanRoute env db (some s) id = .ok { scan with imageUrl := url } ∧
    listScansRoute db (some s) = .ok (scansByUserDesc db s.userId) ∧
    (∀ sc ∈ scansByUserDesc db s.userId, sc ∈ db) := by
  refine ⟨?_, rfl, rfl, ?_, rfl, ?_⟩
  · simp [uploadRoute, hbuf, hup, husign, han, hins]
  · simp [getScanRoute, hfind, hown, hsign]
  · intro sc hsc
    have hmem : sc ∈ db.filter fun sc => sc.userId == s.userId := by
      have hperm := List.mergeSort_perm (db.filter fun sc => sc.userId == s.userId)
        (fun a b : Scan => decide (b.createdAt ≤ a.createdAt))
      exact hperm.mem_iff.mp hsc
    exact List.mem_of_mem_filter hmem

/-- Witness for the amended C2 on concrete data: alice uploads
`sampleFile` and reads scan s1. -/
theorem signed_url_persistence_and_rederivation_witness :
    Event.dbInsert (mkInsertRow "alice"
        ("https://signed.example/" ++ scanKey "alice" 7 "f.jpg")
        (scanKey "alice" 7 "f.jpg") sampleAnalysis) ∈
      (uploadRoute envOk (some ⟨"alice"⟩) (some sampleFile) 7).2 ∧
    (mkInsertRow "alice" ("https://signed.example/" ++ scanKey "alice" 7 "f.jpg")
        (scanKey "alice" 7 "f.jpg") sampleAnalysis).imageUrl =
      "https://signed.example/" ++ scanKey "alice" 7 "f.jpg" ∧
    (mkInsertRow "alice" ("https://signed.example/" ++ scanKey "alice" 7 "f.jpg")
        (scanKey "alice" 7 "f.jpg") sampleAnalysis).imageKey =
      scanKey "alice" 7 "f.jpg" ∧
    getScanRoute envOk dbOne (some ⟨"alice"⟩) "s1" =
      .ok { scanAlice with imageUrl := "https://signed.example/" ++ "k1" } ∧
    listScansRoute dbOne (some ⟨"alice"⟩) = .ok (scansByUserDesc dbOne "alice") ∧
    (∀ sc ∈ scansByUserDesc dbOne "alice", sc ∈ dbOne) :=
  signed_url_persistence_and_rederivation envOk dbOne ⟨"alice"⟩ "s1" scanAlice
    ("https://signed.example/" ++ "k1") sampleFile 7 [1, 2, 3]
    (scanKey "alice" 7 "f.jpg")
    ("https://signed.example/" ++ scanKey "alice" 7 "f.jpg") sampleAnalysis
    (insertedScan "scan-1" 99
      (mkInsertRow "alice" ("https://signed.example/" ++ scanKey "alice" 7 "f.jpg")
        (scanKey "alice" 7 "f.jpg") sampleAnalysis))
    (by decide) (by decide) rfl rfl rfl rfl rfl rfl

/-- C6: when the storage write (and url signing) succeeds and the
vision-analysis adapter then fails, the route rethrows the failure
unrecovered (serverError), no database insert event occurs, the stored
object is never deleted (no storageDelete event — the route has no
compensating action), and the storage upload already happened: the stored
object is left orphaned. -/
theorem upload_analysis_failure_orphans (env : Env) (s : Session) (data : FilePart)
    (now : Nat) (buffer : ByteBuf) (ukey url : String)
    (hbuf : toBuffer fileSizeLimit data = .ok buffer)
    (hup : env.storageUpload (scanKey s.userId now data.filename) buffer = .ok ukey)
    (hsign : env.getSignedUrl ukey = .ok url)
    (han : env.generateObject buffer (data.mimetype.getD "image/jpeg") = .error ()) :
    (uploadRoute env (some s) (some data) now).1 = .serverError ∧
    (uploadRoute env (some s) (some data) now).2 =
      [.storageUpload (scanKey s.userId now data.filename) buffer, .signUrl ukey,
       .analyze buffer (data.mimetype.getD "image/jpeg")] ∧
    (∀ row, Event.dbInsert row ∉ (uploadRoute env (some s) (some data) now).2) ∧
    (∀ k, Event.storageDelete k ∉ (uploadRoute env (some s) (some data) now).2) ∧
    Event.storageUpload (scanKey s.userId now data.filename) buffer ∈
      (uploadRoute env (some s) (some data) now).2 := by
  have htr : uploadRoute env (some s) (some data) now =
      (.serverError,
        [.storageUpload (scanKey s.userId now data.filename) buffer, .signUrl ukey,
         .analyze buffer (data.mimetype.getD "image/jpeg")]) := by
    simp [uploadRoute, hbuf, hup, hsign, han]
  rw [htr]
  refine ⟨rfl, rfl, fun row => ?_, fun k => ?_, ?_⟩ <;> simp

/-- Witness for C6: the failing-analysis environment on a concrete
upload. -/
theorem upload_analysis_failure_orphans_witness :
    (uploadRoute envAnalysisFails (some ⟨"user-a"⟩) (some sampleFile) 7).1 =
      .serverError ∧
    (uploadRoute envAnalysisFails (some ⟨"user-a"⟩) (some sampleFile) 7).2 =
      [.storageUpload (scanKey "user-a" 7 "f.jpg") [1, 2, 3],
       .signUrl (scanKey "user-a" 7 "f.jpg"),
       .analyze [1, 2, 3] "image/jpeg"] ∧
    (∀ row, Event.dbInsert row ∉
      (uploadRoute envAnalysisFails (some ⟨"user-a"⟩) (some sampleFile) 7).2) ∧
    (∀ k, Event.storageDelete k ∉
      (uploadRoute envAnalysisFails (some ⟨"user-a"⟩) (some sampleFile) 7).2) ∧
    Event.storageUpload (scanKey "user-a" 7 "f.jpg") [1, 2, 3] ∈
      (uploadRoute envAnalysisFails (some ⟨"user-a"⟩) (some sampleFile) 7).2 :=
  upload_analysis_failure_orphans envAnalysisFails ⟨"user-a"⟩ sampleFile 7 [1, 2, 3]
    (scanKey "user-a" 7 "f.jpg")
    ("https://signed.example/" ++ scanKey "user-a" 7 "f.jpg") rfl rfl rfl rfl

/-- C7: every successful execution of the upload route makes its external
calls strictly sequentially — its trace is exactly the storage upload,
then the url signing, then the vision analysis, then the database insert,
in this order; in particular the storage write precedes the analysis call
and the analysis call precedes the insert. -/
theorem upload_success_sequential (env : Env) (s : Session) (data : FilePart)
    (now : Nat) (sid url : String) (a : Analysis)
    (h : (uploadRoute env (some s) (some data) now).1 = .ok sid url a) :
    ∃ key buffer ukey mime row,
      (uploadRoute env (some s) (some data) now).2 =
        [.storageUpload key buffer, .signUrl ukey, .analyze buffer mime,
         .dbInsert row] := by
  cases hbuf : toBuffer fileSizeLimit data with
  | error e => simp [uploadRoute, hbuf] at h
  | ok buffer =>
    cases hup : env.storageUpload (scanKey s.userId now data.filename) buffer with
    | error e => simp [uploadRoute, hbuf, hup] at h
    | ok ukey =>
      cases hsign : env.getSignedUrl ukey with
      | error e => simp [uploadRoute, hbuf, hup, hsign] at h
      | ok u =>
        cases han : env.generateObject buffer (data.mimetype.getD "image/jpeg") with
        | error e => simp [uploadRoute, hbuf, hup, hsign, han] at h
        | ok a2 =>
          cases hins : env.dbInsert (mkInsertRow s.userId u ukey a2) with
          | error e => simp [uploadRoute, hbuf, hup, hsign, han, hins] at h
          | ok scan =>
            exact ⟨scanKey s.userId now data.filename, buffer, ukey,
              data.mimetype.getD "image/jpeg", mkInsertRow s.userId u ukey a2,
              by simp [uploadRoute, hbuf, hup, hsign, han, hins]⟩

/-- Witness for C7 on a concrete successful upload. -/
theorem upload_success_sequential_witness :
    ∃ key buffer ukey mime row,
      (uploadRoute envOk (some ⟨"user-a"⟩) (some sampleFile) 7).2 =
        [.storageUpload key buffer, .signUrl ukey, .analyze buffer mime,
         .dbInsert row] :=
  upload_success_sequential envOk ⟨"user-a"⟩ sampleFile 7 "scan-1"
    ("https://signed.example/" ++ scanKey "user-a" 7 "f.jpg") sampleAnalysis rfl

/-- C9: on a successful upload the key under which the bytes are written
to storage is the string scans/ ++ owner id ++ / ++ upload timestamp ++ -
++ original filename; when the storage adapter returns that key (its
contract: put(key, bytes) gives back the key), the inserted row records
exactly this key as `imageKey`, while the signed URL goes to the separate
`imageUrl` field. -/
theorem upload_key_namespaced (env : Env) (s : Session) (data : FilePart)
    (now : Nat) (buffer : ByteBuf) (url : String) (a : Analysis) (inserted : Scan)
    (hbuf : toBuffer fileSizeLimit data = .ok buffer)
    (hup : env.storageUpload (scanKey s.userId now data.filename) buffer =
      .ok (scanKey s.userId now data.filename))
    (hsign : env.getSignedUrl (scanKey s.userId now data.filename) = .ok url)
    (han : env.generateObject buffer (data.mimetype.getD "image/jpeg") = .ok a)
    (hins : env.dbInsert
      (mkInsertRow s.userId url (scanKey s.userId now data.filename) a) =
      .ok inserted) :
    scanKey s.userId now data.filename =
      "scans/" ++ s.userId ++ "/" ++ toString now ++ "-" ++ data.filename ∧
    Event.storageUpload (scanKey s.userId now data.filename) buffer ∈
      (uploadRoute env (some s) (some data) now).2 ∧
    Event.dbInsert (mkInsertRow s.userId url (scanKey s.userId now data.filename) a)
      ∈ (uploadRoute env (some s) (some data) now).2 ∧
    (mkInsertRow s.userId url (scanKey s.userId now data.filename) a).imageKey =
      "scans/" ++ s.userId ++ "/" ++ toString now ++ "-" ++ data.filename ∧
    (mkInsertRow s.userId url (scanKey s.userId now data.filename) a).imageUrl =
      url := by
  refine ⟨rfl, ?_, ?_, rfl, rfl⟩ <;>
    simp [uploadRoute, hbuf, hup, hsign, han, hins]

/-- Witness for C9 on a concrete successful upload. -/
theorem upload_key_namespaced_witness :
    scanKey "user-a" 7 "f.jpg" =
      "scans/" ++ "user-a" ++ "/" ++ toString 7 ++ "-" ++ "f.jpg" ∧
    Event.storageUpload (scanKey "user-a" 7 "f.jpg") [1, 2, 3] ∈
      (uploadRoute envOk (some ⟨"user-a"⟩) (some sampleFile) 7).2 ∧
    Event.dbInsert (mkInsertRow "user-a"
        ("https://signed.example/" ++ scanKey "user-a" 7 "f.jpg")
        (scanKey "user-a" 7 "f.jpg") sampleAnalysis) ∈
      (uploadRoute envOk (some ⟨"user-a"⟩) (some sampleFile) 7).2 ∧
    (mkInsertRow "user-a" ("https://signed.example/" ++ scanKey "user-a" 7 "f.jpg")
        (scanKey "user-a" 7 "f.jpg") sampleAnalysis).imageKey =
      "scans/" ++ "user-a" ++ "/" ++ toString 7 ++ "-" ++ "f.jpg" ∧
    (mkInsertRow "user-a" ("https://signed.example/" ++ scanKey "user-a" 7 "f.jpg")
        (scanKey "user-a" 7 "f.jpg") sampleAnalysis).imageUrl =
      "https://signed.example/" ++ scanKey "user-a" 7 "f.jpg" :=
  upload_key_namespaced envOk ⟨"user-a"⟩ sampleFile 7 [1, 2, 3]
    ("https://signed.example/" ++ scanKey "user-a" 7 "f.jpg") sampleAnalysis
    (insertedScan "scan-1" 99
      (mkInsertRow "user-a" ("https://signed.example/" ++ scanKey "user-a" 7 "f.jpg")
        (scanKey "user-a" 7 "f.jpg") sampleAnalysis))
    rfl rfl rfl rfl rfl

/-! ### Client-side handling of the upload response (C10) -/

/-- A fragment of JSON/JS values as handled by the client code: strings,
booleans, objects, and undefined (the result of reading an absent
property). -/
inductive Js where
  | str (s : String)
  | bool (b : Bool)
  | obj (fields : List (String × Js))
  | undefined

/-- JS property access on a parsed JSON value: the value of the field,
undefined when the field is absent or the receiver is not an object. -/
def Js.get : Js → String → Js
  | .obj fields, k =>
    match fields.find? (fun f => f.1 == k) with
    | some f => f.2
    | none => .undefined
  | _, _ => .undefined

/-- JS truthiness restricted to the values in play: undefined, false and
the empty string are falsy. -/
def Js.truthy : Js → Bool
  | .str s => !(s == "")
  | .bool b => b
  | .obj _ => true
  | .undefined => false

/-- The JS short-circuit or of two values: the left one when truthy,
otherwise the right one. -/
def jsOr (a b : Js) : Js := if a.truthy then a else b

/-- The wire form of the confidence enum. -/
def Confidence.toWire : Confidence → String
  | .high => "high"
  | .medium => "medium"
  | .low => "low"

/-- The JSON body of a 200 upload response as built by the server route:
scanId and imageUrl at the top level, and the seven analysis fields
nested under the top-level key analysis. -/
def uploadResponseJs (scanId imageUrl : String) (a : Analysis) : Js :=
  .obj [("scanId", .str scanId), ("imageUrl", .str imageUrl),
        ("analysis", .obj
          [("species", .str a.species),
           ("commonName", .str a.commonName),
           ("isSafeToEat", .bool a.isSafeToEat),
           ("isSafeToTouch", .bool a.isSafeToTouch),
           ("confidence", .str a.confidence.toWire),
           ("warnings", .str a.warnings),
           ("description", .str a.description)])]

/-- The ScanResult record the client screen stores and displays. -/
structure ClientScanResult where
  scanId : Js
  species : Js
  commonName : Js
  isSafeToEat : Js
  isSafeToTouch : Js
  confidence : Js
  warnings : Js
  description : Js
  imageUrl : Js

/-- The ScanResult construction inside the client function `analyzePlant`
(`src/unnamed/part_002`, lines 594 to 604): every field is read from the
TOP LEVEL of uploadData, with a short-circuit default for falsy reads. -/
def analyzePlantResult (uploadData : Js) (selectedImage : String) :
    ClientScanResult :=
  { scanId := jsOr (uploadData.get "id") (uploadData.get "scanId")
    species := jsOr (uploadData.get "species") (.str "Unknown")
    commonName := jsOr (uploadData.get "commonName") (.str "Unknown")
    isSafeToEat := jsOr (uploadData.get "isSafeToEat") (.bool false)
    isSafeToTouch := jsOr (uploadData.get "isSafeToTouch") (.bool false)
    confidence := jsOr (uploadData.get "confidence") (.str "low")
    warnings := jsOr (uploadData.get "warnings") (.str "")
    description := jsOr (uploadData.get "description")
      (.str "No description available")
    imageUrl := jsOr (uploadData.get "imageUrl") (.str selectedImage) }

/-- C10: the server nests the analysis under the top-level key analysis,
but the client reads the seven analysis fields from the top level of the
response, so every one of them is undefined there and the ScanResult the
client displays carries the coerced defaults — Unknown, Unknown, false,
false, low, empty warnings, No description available — whatever analysis
the server returned; only scanId and imageUrl survive. -/
theorem client_displays_defaults (scanId imageUrl : String) (a : Analysis)
    (img : String) (hurl : imageUrl ≠ "") :
    analyzePlantResult (uploadResponseJs scanId imageUrl a) img =
      { scanId := .str scanId
        species := .str "Unknown"
        commonName := .str "Unknown"
        isSafeToEat := .bool false
        isSafeToTouch := .bool false
        confidence := .str "low"
        warnings := .str ""
        description := .str "No description available"
        imageUrl := .str imageUrl } := by
  simp [analyzePlantResult, uploadResponseJs, Js.get, jsOr, Js.truthy,
    List.find?, hurl]

/-- Witness for C10: a concrete successful response whose analysis is
`sampleAnalysis`; the client-displayed record is all defaults. -/
theorem client_displays_defaults_witness :
    analyzePlantResult
        (uploadResponseJs "scan-1" "https://signed.example/k" sampleAnalysis)
        "file:local.jpg" =
      { scanId := .str "scan-1"
        species := .str "Unknown"
        commonName := .str "Unknown"
        isSafeToEat := .bool false
        isSafeToTouch := .bool false
        confidence := .str "low"
        warnings := .str ""
        description := .str "No description available"
        imageUrl := .str "https://signed.example/k" } :=
  client_displays_defaults "scan-1" "https://signed.example/k" sampleAnalysis
    "file:local.jpg" (by decide)

end FloraFauna
